import Mathlib

/-!
Verification of the spotify-lyrics-api-rust repository against its
natural-language specification.

The development shallowly embeds the Rust sources (`src/spotify.rs`,
`src/main.rs`, `src/spotifyexception.rs`) into Lean:

* pure helpers (`generate_totp`, `extract_track_id`, `format_ms`, the
  query-parameter construction) become Lean functions over `Nat`,
  `List Char` and `String`;
* the external crates `sha1`, `hmac` and `base32` are modelled by
  executable Lean implementations of SHA-1, HMAC-SHA1 and RFC 4648
  base32 decoding;
* stateful code (`get_token`, `check_tokens_expire`, `get_lyrics`, the
  HTTP handler) becomes explicit state passing over a `FileState` value
  modelling the token-cache file, with HTTP responses supplied as
  explicit environment values; machine integers are `Nat`;
* fallible code returns `Except SpotifyException _`, mirroring the
  `SpotifyException` enum.
-/

namespace SpotifyLyrics

/-! ## Decimal rendering and zero padding

Models Rust's `u64`/`u32` `Display` (plain decimal) and the `{:0N}`
format specifier (left pad with zeros to a minimum width). -/

/-- Fuel-indexed decimal rendering; `fuel` bounds the recursion depth
and any `fuel > n` is sufficient. -/
def natDecimalAux (fuel n : Nat) : List Char :=
  match fuel with
  | 0 => []
  | fuel + 1 =>
    if n < 10 then [Char.ofNat (48 + n)]
    else natDecimalAux fuel (n / 10) ++ [Char.ofNat (48 + n % 10)]

/-- Decimal digit characters of a natural number, most significant first.
Models Rust's integer `Display`. -/
def natDecimal (n : Nat) : List Char := natDecimalAux (n + 1) n

/-- Left-pad a character list with zeros to a minimum width; models
Rust's `{:0N}` format specifier applied to an unsigned integer. -/
def zeroPad (w : Nat) (s : List Char) : List Char :=
  List.replicate (w - s.length) '0' ++ s

/-- Decimal string of a natural number (Rust `to_string`). -/
def rustShow (n : Nat) : String := String.mk (natDecimal n)

theorem natDecimal_ne_nil (n : Nat) : natDecimal n ≠ [] := by
  unfold natDecimal natDecimalAux
  split
  · simp
  · simp

theorem natDecimalAux_length_le : ∀ fuel n k, n < fuel → 0 < k → n < 10 ^ k →
    (natDecimalAux fuel n).length ≤ k := by
  intro fuel
  induction fuel with
  | zero => intro n k h; omega
  | succ f ih =>
    intro n k hn hk hpow
    simp only [natDecimalAux]
    split
    · simpa using hk
    · rename_i h10
      push_neg at h10
      have hk1 : 1 < k := by
        by_contra hc
        have hke : k = 1 := by omega
        subst hke
        simp at hpow
        omega
      have hdiv : n / 10 < 10 ^ (k - 1) := by
        have hmul : 10 ^ (k - 1) * 10 = 10 ^ k := by
          have hke : k - 1 + 1 = k := by omega
          calc 10 ^ (k - 1) * 10 = 10 ^ (k - 1 + 1) := by ring
            _ = 10 ^ k := by rw [hke]
        omega
      have hfuel : n / 10 < f := by
        have := Nat.div_lt_self (show 0 < n by omega) (show 1 < 10 by omega)
        omega
      have := ih (n / 10) (k - 1) hfuel (by omega) hdiv
      simp only [List.length_append, List.length_cons, List.length_nil]
      omega

theorem natDecimal_length_le {n k : Nat} (hk : 0 < k) (h : n < 10 ^ k) :
    (natDecimal n).length ≤ k :=
  natDecimalAux_length_le (n + 1) n k (by omega) hk h

theorem digit_char_isDigit : ∀ m : Nat, m < 10 → (Char.ofNat (48 + m)).isDigit = true := by
  decide

theorem natDecimalAux_isDigit : ∀ fuel n, ∀ c ∈ natDecimalAux fuel n,
    c.isDigit = true := by
  intro fuel
  induction fuel with
  | zero => intro n c hc; simp [natDecimalAux] at hc
  | succ f ih =>
    intro n c hc
    simp only [natDecimalAux] at hc
    split at hc
    · rename_i h
      simp only [List.mem_singleton] at hc
      subst hc
      exact digit_char_isDigit n h
    · simp only [List.mem_append, List.mem_singleton] at hc
      rcases hc with hc | hc
      · exact ih (n / 10) c hc
      · subst hc
        exact digit_char_isDigit (n % 10) (Nat.mod_lt _ (by omega))

theorem natDecimal_isDigit {n : Nat} : ∀ c ∈ natDecimal n, c.isDigit = true :=
  natDecimalAux_isDigit (n + 1) n

/-! ## Big-endian byte strings -/

/-- The `k` big-endian bytes of `n` (truncating above `2^(8k)`); models
`u64::to_be_bytes` and the byte output of digest words. -/
def beBytes (k n : Nat) : List Nat :=
  (List.range k).map (fun i => n / 256 ^ (k - 1 - i) % 256)

@[simp] theorem beBytes_length (k n : Nat) : (beBytes k n).length = k := by
  simp [beBytes]

theorem beBytes_lt (k n : Nat) : ∀ b ∈ beBytes k n, b < 256 := by
  intro b hb
  simp only [beBytes, List.mem_map] at hb
  obtain ⟨i, _, rfl⟩ := hb
  exact Nat.mod_lt _ (by omega)

/-! ## SHA-1 and HMAC-SHA1

Executable model of the `sha1` and `hmac` crates used by
`Spotify::generate_totp`.  Words are naturals reduced modulo `2^32`. -/

/-- 32-bit left rotation of a word already reduced modulo `2^32`. -/
def rotl (s x : Nat) : Nat := (x * 2 ^ s + x / 2 ^ (32 - s)) % 4294967296

/-- SHA-1 round function. -/
def sha1F (i b c d : Nat) : Nat :=
  if i < 20 then (b &&& c) ||| ((b ^^^ 4294967295) &&& d)
  else if i < 40 then b ^^^ c ^^^ d
  else if i < 60 then (b &&& c) ||| (b &&& d) ||| (c &&& d)
  else b ^^^ c ^^^ d

/-- SHA-1 round constants. -/
def sha1K (i : Nat) : Nat :=
  if i < 20 then 1518500249
  else if i < 40 then 1859775393
  else if i < 60 then 2400959708
  else 3395469782

/-- The 80-word message schedule of one 16-word block. -/
def sha1Schedule (block : List Nat) : List Nat :=
  (List.range 80).foldl (fun ws i =>
    if i < 16 then ws ++ [block.getD i 0]
    else ws ++ [rotl 1 (ws.getD (i - 3) 0 ^^^ ws.getD (i - 8) 0 ^^^
                        ws.getD (i - 14) 0 ^^^ ws.getD (i - 16) 0)]) []

/-- The five 32-bit chaining words of SHA-1. -/
structure Sha1State where
  h0 : Nat
  h1 : Nat
  h2 : Nat
  h3 : Nat
  h4 : Nat

/-- One SHA-1 compression step over a 16-word block. -/
def sha1Compress (st : Sha1State) (block : List Nat) : Sha1State :=
  let ws := sha1Schedule block
  let r := (List.range 80).foldl (fun p i =>
    let t := (rotl 5 p.1 + sha1F i p.2.1 p.2.2.1 p.2.2.2.1 + p.2.2.2.2 +
              sha1K i + ws.getD i 0) % 4294967296
    (t, p.1, rotl 30 p.2.1, p.2.2.1, p.2.2.2.1))
    (st.h0, st.h1, st.h2, st.h3, st.h4)
  ⟨(st.h0 + r.1) % 4294967296, (st.h1 + r.2.1) % 4294967296,
   (st.h2 + r.2.2.1) % 4294967296, (st.h3 + r.2.2.2.1) % 4294967296,
   (st.h4 + r.2.2.2.2) % 4294967296⟩

/-- Merkle–Damgård padding: append `0x80`, zeros and the 64-bit
big-endian bit length, reaching a multiple of 64 bytes. -/
def sha1Pad (msg : List Nat) : List Nat :=
  msg ++ [128] ++ List.replicate ((64 - (msg.length + 9) % 64) % 64) 0 ++
    beBytes 8 (8 * msg.length)

/-- Group bytes into big-endian 32-bit words. -/
def bytesToWords : List Nat → List Nat
  | b0 :: b1 :: b2 :: b3 :: rest =>
      (((b0 * 256 + b1) * 256 + b2) * 256 + b3) :: bytesToWords rest
  | _ => []

/-- Split a byte string into 64-byte blocks. -/
def toBlocks (l : List Nat) : List (List Nat) :=
  if l.isEmpty then [] else l.take 64 :: toBlocks (l.drop 64)
termination_by l.length
decreasing_by
  rename_i h
  simp only [List.isEmpty_iff] at h
  have : 0 < l.length := List.length_pos.mpr h
  simp only [List.length_drop]
  omega

/-- SHA-1 digest (20 bytes) of a byte string. -/
def sha1 (msg : List Nat) : List Nat :=
  let st := (toBlocks (sha1Pad msg)).foldl
    (fun st b => sha1Compress st (bytesToWords b))
    ⟨1732584193, 4023233417, 2562383102, 271733878, 3285377520⟩
  beBytes 4 st.h0 ++ beBytes 4 st.h1 ++ beBytes 4 st.h2 ++
    beBytes 4 st.h3 ++ beBytes 4 st.h4

/-- HMAC-SHA1 with a 64-byte block size; models the `hmac` crate
(`Hmac::<Sha1>::new_from_slice`, which accepts keys of any size). -/
def hmacSha1 (key msg : List Nat) : List Nat :=
  let k0 := if 64 < key.length then sha1 key else key
  let k1 := k0 ++ List.replicate (64 - k0.length) 0
  sha1 ((k1.map fun b => b ^^^ 92) ++ sha1 ((k1.map fun b => b ^^^ 54) ++ msg))

@[simp] theorem sha1_length (msg : List Nat) : (sha1 msg).length = 20 := by
  simp [sha1]

theorem sha1_lt (msg : List Nat) : ∀ b ∈ sha1 msg, b < 256 := by
  intro b hb
  simp only [sha1, List.mem_append] at hb
  rcases hb with ((((h | h) | h) | h) | h) <;> exact beBytes_lt _ _ _ h

@[simp] theorem hmacSha1_length (key msg : List Nat) :
    (hmacSha1 key msg).length = 20 := by
  simp [hmacSha1]

theorem hmacSha1_lt (key msg : List Nat) : ∀ b ∈ hmacSha1 key msg, b < 256 := by
  intro b hb
  exact sha1_lt _ b hb

theorem hmacSha1_getD_lt (key msg : List Nat) (i : Nat) :
    (hmacSha1 key msg).getD i 0 < 256 := by
  by_cases h : i < (hmacSha1 key msg).length
  · rw [List.getD_eq_getElem _ _ h]
    exact hmacSha1_lt key msg _ (List.getElem_mem h)
  · rw [List.getD_eq_default _ _ (by omega)]
    omega

/-! ## Base32 decoding (RFC 4648 alphabet, no padding)

Model of the `base32` crate's `decode` used on the hardcoded TOTP
secret. -/

/-- The RFC 4648 base32 alphabet. -/
def b32Alphabet : List Char := "ABCDEFGHIJKLMNOPQRSTUVWXYZ234567".data

/-- Index of a character in the base32 alphabet. -/
def b32Val (c : Char) : Option Nat :=
  let i := b32Alphabet.indexOf c
  if i < 32 then some i else none

/-- Decode a base32 string to bytes: concatenate the 5-bit values and
keep the complete leading bytes, dropping trailing leftover bits.
`none` on any character outside the alphabet. -/
def base32Decode (s : String) : Option (List Nat) :=
  let vals := s.data.map b32Val
  if vals.any Option.isNone then none
  else
    let ns := vals.map (fun v => v.getD 0)
    let nbits := 5 * ns.length
    let total := ns.foldl (fun acc v => acc * 32 + v) 0
    some (beBytes (nbits / 8) (total / 2 ^ (nbits % 8)))

/-! ## The TOTP generator (`Spotify::generate_totp`) -/

/-- The hardcoded base32 secret from `generate_totp`. -/
def totpSecretLiteral : String :=
  "GU2TANZRGQ2TQNJTGQ4DONBZHE2TSMRSGQ4DMMZQGMZDSMZUG4"

/-- Body of `Spotify::generate_totp` after the secret has been decoded:
counter, HMAC-SHA1, dynamic truncation, 6-digit zero-padded code. -/
def totpFromSecret (secret : List Nat) (server_time_seconds : Nat) : String :=
  let counter := server_time_seconds / 30
  let counter_bytes := beBytes 8 counter
  let result := hmacSha1 secret counter_bytes
  let offset := result.getD 19 0 &&& 15
  let binary := ((result.getD offset 0 &&& 127) <<< 24) |||
    (result.getD (offset + 1) 0 <<< 16) |||
    (result.getD (offset + 2) 0 <<< 8) |||
    result.getD (offset + 3) 0
  let otp := binary % 1000000
  String.mk (zeroPad 6 (natDecimal otp))

/-- `Spotify::generate_totp`: decode the hardcoded secret
(`unwrap_or_default` yields `[]` on failure) and derive the code. -/
def generate_totp (server_time_seconds : Nat) : String :=
  totpFromSecret ((base32Decode totpSecretLiteral).getD []) server_time_seconds

/-- Modelled from the spec: the OTP derivation as §4.1 words it —
counter = floor(time/30), keyed 160-bit hash of the big-endian 8-byte
counter, offset = low 4 bits of the last digest byte, 4 bytes from that
offset as a big-endian integer with the top bit of the first byte
masked to zero, reduced modulo 1,000,000, left-zero-padded to 6
digits. -/
def spec_totp (secret : List Nat) (server_time_seconds : Nat) : String :=
  let digest := hmacSha1 secret (beBytes 8 (server_time_seconds / 30))
  let offset := digest.getD 19 0 % 16
  let binary := (digest.getD offset 0 % 128) * 16777216 +
    digest.getD (offset + 1) 0 * 65536 +
    digest.getD (offset + 2) 0 * 256 +
    digest.getD (offset + 3) 0
  String.mk (zeroPad 6 (natDecimal (binary % 1000000)))

/-! ## JSON values (model of `serde_json::Value`)

Numbers are modelled as integers, which covers every field the program
reads (`serverTime`, `accessTokenExpirationTimestampMs` via `as_u64`). -/

inductive Json where
  | null : Json
  | bool (b : Bool) : Json
  | num (n : Int) : Json
  | str (s : String) : Json
  | arr (elems : List Json) : Json
  | obj (fields : List (String × Json)) : Json

/-- `Value::get` on an object: `Some` field value, `None` otherwise. -/
def jGet (j : Json) (key : String) : Option Json :=
  match j with
  | .obj fields => (fields.find? (fun f => f.1 = key)).map Prod.snd
  | _ => none

/-- `Value::index` (`json[key]`): field value, or `Null` when the key is
absent or the value is not an object. -/
def jIdx (j : Json) (key : String) : Json :=
  (jGet j key).getD .null

/-- `Value::as_str`. -/
def jAsStr : Json → Option String
  | .str s => some s
  | _ => none

/-- `Value::as_u64`: the number when it is a non-negative integer below
`2^64`. -/
def jAsU64 : Json → Option Nat
  | .num n => if 0 ≤ n ∧ n < 18446744073709551616 then some n.toNat else none
  | _ => none

/-- `Value::as_bool`. -/
def jAsBool : Json → Option Bool
  | .bool b => some b
  | _ => none

/-- `Value::as_array`. -/
def jAsArr : Json → Option (List Json)
  | .arr xs => some xs
  | _ => none

/-- `Value == "literal"` (serde_json's `PartialEq<&str>`). -/
def jEqStr (j : Json) (s : String) : Bool :=
  match j with
  | .str t => t = s
  | _ => false

/-! ## Errors (`SpotifyException`) -/

inductive SpotifyException where
  | ApiError (m : String) : SpotifyException
  | RequestError (m : String) : SpotifyException
  | JsonError (m : String) : SpotifyException
  | IoError (m : String) : SpotifyException
  | UrlEncodedError (m : String) : SpotifyException
  | Generic (m : String) : SpotifyException
deriving DecidableEq

/-- The `Display` implementation derived by `thiserror`. -/
def displayExc : SpotifyException → String
  | .ApiError m => "Spotify API error: " ++ m
  | .RequestError m => "HTTP request error: " ++ m
  | .JsonError m => "JSON parsing error: " ++ m
  | .IoError m => "IO error: " ++ m
  | .UrlEncodedError m => "URL encoding error: " ++ m
  | .Generic m => m

/-! ## HTTP status plumbing -/

/-- `reqwest::StatusCode::is_success` (2xx). -/
def statusIsSuccess (s : Nat) : Bool := 200 ≤ s && s < 300

/-- Model of `StatusCode::canonical_reason` for the common codes. -/
def canonicalReason (s : Nat) : Option String :=
  if s = 200 then some "OK"
  else if s = 400 then some "Bad Request"
  else if s = 401 then some "Unauthorized"
  else if s = 403 then some "Forbidden"
  else if s = 404 then some "Not Found"
  else if s = 429 then some "Too Many Requests"
  else if s = 500 then some "Internal Server Error"
  else if s = 502 then some "Bad Gateway"
  else if s = 503 then some "Service Unavailable"
  else none

/-- `StatusCode`'s `Display`: `"<code> <canonical reason>"`. -/
def statusDisplay (s : Nat) : String :=
  rustShow s ++ " " ++ (canonicalReason s).getD "<unknown status code>"

/-! ## The token cache file

`CacheData` is the serde struct; the cache file on disk is modelled by
`FileState`: absent, present with parseable content, or present with
unparsable content (carrying the parse error message). -/

structure CacheData where
  access_token : Option String
  client_id : Option String
  access_token_expiration_timestamp_ms : Option Nat
deriving DecidableEq

inductive CacheContent where
  | good (d : CacheData) : CacheContent
  | bad (parseErrMsg : String) : CacheContent
deriving DecidableEq

inductive FileState where
  | absent : FileState
  | present (c : CacheContent) : FileState
deriving DecidableEq

/-- `Spotify::load_cache_file`: a missing file yields the empty record,
unparsable content surfaces the serde error. -/
def load_cache_file (fs : FileState) : Except SpotifyException CacheData :=
  match fs with
  | .absent => .ok ⟨none, none, none⟩
  | .present (.good d) => .ok d
  | .present (.bad m) => .error (.JsonError m)

/-- `Spotify::save_cache_file`: truncate and overwrite the file. -/
def save_cache_file (d : CacheData) : FileState :=
  .present (.good d)

/-! ## Token acquisition (`get_server_time_params`, `get_token`)

The two upstream HTTP responses consumed during one acquisition are
supplied as an explicit environment: a status code and an optional
parsed JSON body (`none` models a body that fails to decode). -/

structure TokenEnv where
  stStatus : Nat
  stBody : Option Json
  tokStatus : Nat
  tokBody : Option Json

/-- The fixed query-parameter map built by `get_server_time_params`
from the extracted server time, in insertion order. -/
def serverTimeParams (server_time_seconds : Nat) : List (String × String) :=
  let totp := generate_totp server_time_seconds
  let time_str := rustShow server_time_seconds
  [("reason", "transport"),
   ("productType", "web_player"),
   ("totp", totp),
   ("totpServer", totp),
   ("totpVer", "5"),
   ("sTime", time_str),
   ("cTime", time_str ++ "420")]

/-- `Spotify::get_server_time_params`: check the server-time response
status, decode its JSON, extract `serverTime` as `u64`, build the
parameter map. -/
def get_server_time_params (env : TokenEnv) :
    Except SpotifyException (List (String × String)) :=
  if ¬ statusIsSuccess env.stStatus then
    .error (.ApiError ("Failed to fetch server time: HTTP status " ++
      statusDisplay env.stStatus))
  else
    match env.stBody with
    | none => .error (.RequestError "error decoding response body")
    | some j =>
      match jAsU64 (jIdx j "serverTime") with
      | none => .error (.Generic "Invalid server time response")
      | some t => .ok (serverTimeParams t)

/-- `Spotify::get_token`: empty-credential check, server-time round
trip, token-exchange round trip, `isAnonymous` check, then merge into
the loaded cache record and persist.  Returns the result together with
the cache-file state after the call. -/
def get_token (sp_dc : String) (env : TokenEnv) (fs : FileState) :
    Except SpotifyException Unit × FileState :=
  if sp_dc = "" then
    (.error (.Generic "Please set SP_DC as an environmental variable."), fs)
  else
    match get_server_time_params env with
    | .error e => (.error e, fs)
    | .ok _params =>
      if ¬ statusIsSuccess env.tokStatus then
        (.error (.ApiError ("Token request failed: HTTP status " ++
          statusDisplay env.tokStatus)), fs)
      else
        match env.tokBody with
        | none => (.error (.RequestError "error decoding response body"), fs)
        | some token_json =>
          if ((jGet token_json "isAnonymous").map
                (fun v => (jAsBool v).getD false)).getD false then
            (.error (.Generic "The SP_DC set seems to be invalid, please correct it!"), fs)
          else
            match load_cache_file fs with
            | .error e => (.error e, fs)
            | .ok cache0 =>
              let cache1 : CacheData :=
                { cache0 with
                  access_token := jAsStr (jIdx token_json "accessToken"),
                  access_token_expiration_timestamp_ms :=
                    jAsU64 (jIdx token_json "accessTokenExpirationTimestampMs") }
              let cache2 : CacheData :=
                match jAsStr (jIdx token_json "clientId") with
                | some cid => { cache1 with client_id := some cid }
                | none => cache1
              (.ok (), save_cache_file cache2)

/-! ## Freshness guard (`check_tokens_expire`) -/

/-- Result of `check_tokens_expire`; `calledGetToken` is instrumentation
recording whether the guard delegated to `get_token`. -/
structure CheckResult where
  result : Except SpotifyException Unit
  state : FileState
  calledGetToken : Bool

/-- `Spotify::check_tokens_expire`: load the cache (propagating a parse
error), decide `need_access_token` exactly as the Rust disjunction
(short-circuiting the `unwrap`), and call `get_token` when needed. -/
def check_tokens_expire (sp_dc : String) (env : TokenEnv) (now : Nat)
    (fs : FileState) : CheckResult :=
  let cache_exists := fs ≠ .absent
  match (if cache_exists then load_cache_file fs else .ok ⟨none, none, none⟩) with
  | .error e => ⟨.error e, fs, false⟩
  | .ok cache_data =>
    let need_access_token := !cache_exists ||
      cache_data.access_token.isNone ||
      (match cache_data.access_token_expiration_timestamp_ms with
       | none => true
       | some e => decide (e < now))
    if need_access_token then
      let r := get_token sp_dc env fs
      ⟨r.1, r.2, true⟩
    else ⟨.ok (), fs, false⟩

/-! ## Lyrics retrieval (`get_lyrics`) -/

/-- Environment for one iteration of the retry loop: the token
environment consumed if `check_tokens_expire` refreshes, and the lyrics
response (status and raw text body). -/
structure AttemptEnv where
  tokenEnv : TokenEnv
  status : Nat
  body : String

/-- `std::fs::remove_file` on the cache path (no-op when absent; the
code ignores removal errors). -/
def removeCacheFile (_fs : FileState) : FileState := .absent

/-- The error message built for a failed lyrics response. -/
def lyricsFailMsg (status : Nat) : String :=
  "Lyrics request failed: HTTP status " ++ rustShow status ++ " " ++
    (canonicalReason status).getD ""

/-- The prefix of one loop iteration of `get_lyrics` before the HTTP
call: ensure freshness, reload the cache, extract the access token. -/
def attemptPrep (sp_dc : String) (env : TokenEnv) (now : Nat)
    (fs : FileState) : Except SpotifyException String × FileState :=
  let c := check_tokens_expire sp_dc env now fs
  match c.result with
  | .error e => (.error e, c.state)
  | .ok _ =>
    match load_cache_file c.state with
    | .error e => (.error e, c.state)
    | .ok cache_data =>
      match cache_data.access_token with
      | none => (.error (.Generic "Access token not found"), c.state)
      | some token => (.ok token, c.state)

/-- `Spotify::get_lyrics`: the `for attempt in 1..=2` loop unrolled.
A 2xx returns the raw body; a 401 on attempt 1 removes the cache file
and retries; any other non-success (including a 401 on attempt 2, for
which `attempt == 1` is false) fails with an `ApiError` carrying the
status and canonical reason.  The trailing "after token refresh" error
in the source is unreachable, as every branch of iteration 2 returns.
The third component counts the iterations entered. -/
def get_lyrics (sp_dc : String) (now : Nat) (env1 env2 : AttemptEnv)
    (fs : FileState) : Except SpotifyException String × FileState × Nat :=
  match attemptPrep sp_dc env1.tokenEnv now fs with
  | (.error e, fs1) => (.error e, fs1, 1)
  | (.ok _token, fs1) =>
    if statusIsSuccess env1.status then (.ok env1.body, fs1, 1)
    else if env1.status = 401 then
      let fs2 := removeCacheFile fs1
      match attemptPrep sp_dc env2.tokenEnv now fs2 with
      | (.error e, fs3) => (.error e, fs3, 2)
      | (.ok _token2, fs3) =>
        if statusIsSuccess env2.status then (.ok env2.body, fs3, 2)
        else (.error (.ApiError (lyricsFailMsg env2.status)), fs3, 2)
    else (.error (.ApiError (lyricsFailMsg env1.status)), fs1, 1)

/-! ## Track-id extraction (`Spotify::extract_track_id`) -/

/-- Rust's `str::split(char)` on a character list: always returns at
least one (possibly empty) segment. -/
def splitChar (sep : Char) : List Char → List (List Char)
  | [] => [[]]
  | c :: rest =>
    if c = sep then [] :: splitChar sep rest
    else
      match splitChar sep rest with
      | [] => [[c]]
      | h :: t => (c :: h) :: t

/-- `Spotify::extract_track_id`: split on `'/'`; when there is a
`"track"` segment at index 3 and a segment at index 4, return the
latter truncated at the first `'?'`. -/
def extract_track_id (url : String) : Option String :=
  let parts := splitChar '/' url.data
  if 4 < parts.length ∧ parts.getD 3 [] = "track".data then
    let track_with_params := splitChar '?' (parts.getD 4 [])
    some (String.mk (track_with_params.headD []))
  else none

/-! ## Timestamp formatting (`Spotify::format_ms`) -/

/-- `Spotify::format_ms`: `"{:02}:{:02}.{:02}"` over minutes, seconds
and centiseconds. -/
def format_ms (milliseconds : Nat) : String :=
  let total_seconds := milliseconds / 1000
  let minutes := total_seconds / 60
  let seconds := total_seconds % 60
  let centiseconds := milliseconds % 1000 / 10
  String.mk (zeroPad 2 (natDecimal minutes)) ++ ":" ++
    String.mk (zeroPad 2 (natDecimal seconds)) ++ "." ++
    String.mk (zeroPad 2 (natDecimal centiseconds))

/-! ## Lyrics formatting (`Spotify::get_formatted_lyrics`) -/

/-- Rust's `str::parse::<u64>`: optional leading `'+'`, then one or
more decimal digits, failing on overflow. -/
def parseU64 (s : String) : Option Nat :=
  let ds := match s.data with
    | '+' :: rest => rest
    | l => l
  if ds.isEmpty then none
  else if ds.all (fun c => c.isDigit) then
    let v := ds.foldl (fun acc c => acc * 10 + (c.toNat - 48)) 0
    if v < 18446744073709551616 then some v else none
  else none

/-- One lrc-format line: `{timeTag, words}` in serde field order. -/
def lrcLineOf (line : Json) : Json :=
  let start_time_ms := (jAsStr (jIdx line "startTimeMs")).getD "0"
  let time_tag := format_ms ((parseU64 start_time_ms).getD 0)
  .obj [("timeTag", .str time_tag),
        ("words", .str ((jAsStr (jIdx line "words")).getD ""))]

/-- One id3-format line: `{startTimeMs, words, syllables, endTimeMs}`
in serde field order, with `syllables` always empty and `endTimeMs`
always the literal `"0"`. -/
def id3LineOf (line : Json) : Json :=
  .obj [("startTimeMs", .str ((jAsStr (jIdx line "startTimeMs")).getD "0")),
        ("words", .str ((jAsStr (jIdx line "words")).getD "")),
        ("syllables", .arr []),
        ("endTimeMs", .str "0")]

/-- `Spotify::get_formatted_lyrics` downstream of the raw fetch: the
argument is the raw `get_lyrics` body after `serde_json::from_str`
(`.error` covering both a failed fetch and a parse error).  Checks the
`lyrics` key, determines the sync type, and serializes the response
struct for the requested format. -/
def get_formatted_lyrics (fetched : Except SpotifyException Json)
    (format : String) : Except SpotifyException Json :=
  match fetched with
  | .error e => .error e
  | .ok lyrics_data =>
    if (jGet lyrics_data "lyrics").isNone then
      .error (.Generic "lyrics for this track is not available on spotify!")
    else
      let sync_type :=
        if jEqStr (jIdx (jIdx lyrics_data "lyrics") "syncType") "LINE_SYNCED"
        then "LINE_SYNCED" else "UNSYNCED"
      let lyrics_lines := (jAsArr (jIdx (jIdx lyrics_data "lyrics") "lines")).getD []
      if format = "lrc" then
        .ok (.obj [("error", .bool false),
                   ("syncType", .str sync_type),
                   ("lines", .arr (lyrics_lines.map lrcLineOf))])
      else
        .ok (.obj [("error", .bool false),
                   ("syncType", .str sync_type),
                   ("lines", .arr (lyrics_lines.map id3LineOf))])

/-! ## The HTTP handler (`main.rs::get_lyrics`) -/

/-- The three query parameters the handler reads. -/
structure Query where
  trackid : Option String
  url : Option String
  format : Option String

/-- `{"error": true, "message": m}` as built by the `json!` calls. -/
def errJson (m : String) : Json :=
  .obj [("error", .bool true), ("message", .str m)]

/-- The handler's track-identifier resolution: `trackid` first, then
`url` via `extract_track_id`, else a 400 response. -/
def resolveTrackId (q : Query) : Except (Nat × Json) String :=
  match q.trackid with
  | some trackid => .ok trackid
  | none =>
    match q.url with
    | some url =>
      match extract_track_id url with
      | some extracted_id => .ok extracted_id
      | none => .error (400, errJson "invalid url parameter!")
    | none => .error (400, errJson "url or trackid parameter is required!")

/-- `main.rs::get_lyrics`, the HTTP handler: resolve the identifier,
validate the format (default `"id3"`), then translate the
`get_formatted_lyrics` outcome (supplied as `fetched`, see
`get_formatted_lyrics`) into an HTTP status and JSON body. -/
def handle_get_lyrics (q : Query) (fetched : Except SpotifyException Json) :
    Nat × Json :=
  match resolveTrackId q with
  | .error resp => resp
  | .ok _track_id =>
    let format := (q.format).getD "id3"
    if format ≠ "id3" ∧ format ≠ "lrc" then
      (400, errJson "format parameter must be either 'id3' or 'lrc'!")
    else
      match get_formatted_lyrics fetched format with
      | .ok lyrics_json => (200, lyrics_json)
      | .error e =>
        match e with
        | .Generic m =>
          if m = "lyrics for this track is not available on spotify!" then
            (404, errJson "lyrics for this track is not available on spotify!")
          else (500, errJson ("Failed to fetch lyrics: " ++ displayExc e))
        | _ => (500, errJson ("Failed to fetch lyrics: " ++ displayExc e))

/-! ## Helper lemmas -/

theorem splitChar_ne_nil (sep : Char) (cs : List Char) : splitChar sep cs ≠ [] := by
  induction cs with
  | nil => simp [splitChar]
  | cons c rest ih =>
    simp only [splitChar]
    split
    · simp
    · cases h : splitChar sep rest with
      | nil => simp
      | cons hd tl => simp

theorem splitChar_headD (sep : Char) (cs : List Char) :
    (splitChar sep cs).headD [] = cs.takeWhile (fun c => c != sep) := by
  induction cs with
  | nil => simp [splitChar]
  | cons c rest ih =>
    simp only [splitChar, List.takeWhile]
    by_cases hc : c = sep
    · simp [hc]
    · cases h : splitChar sep rest with
      | nil => exact absurd h (splitChar_ne_nil sep rest)
      | cons hd tl =>
        have hhd : hd = rest.takeWhile (fun c => c != sep) := by
          rw [← ih, h]
          rfl
        have hbeq : (c == sep) = false := beq_eq_false_iff_ne.mpr hc
        simp [hc, h, hhd, bne, hbeq]

theorem lor_eq_add {i : Nat} (a b : Nat) (hb : b < 2 ^ i) :
    a * 2 ^ i ||| b = a * 2 ^ i + b := by
  rw [mul_comm]
  exact (Nat.mul_add_lt_is_or hb a).symm

theorem truncation_eq (d0 d1 d2 d3 : Nat) (h1 : d1 < 256) (h2 : d2 < 256)
    (h3 : d3 < 256) :
    ((d0 &&& 127) <<< 24) ||| (d1 <<< 16) ||| (d2 <<< 8) ||| d3 =
      d0 % 128 * 16777216 + d1 * 65536 + d2 * 256 + d3 := by
  have hm : d0 &&& 127 = d0 % 128 := by
    have h := Nat.and_pow_two_sub_one_eq_mod d0 7
    norm_num at h
    exact h
  have e1 : d0 % 128 * 2 ^ 24 ||| d1 * 2 ^ 16 =
      d0 % 128 * 2 ^ 24 + d1 * 2 ^ 16 :=
    lor_eq_add _ _ (by norm_num; omega)
  have e2 : (d0 % 128 * 2 ^ 24 + d1 * 2 ^ 16) ||| d2 * 2 ^ 8 =
      d0 % 128 * 2 ^ 24 + d1 * 2 ^ 16 + d2 * 2 ^ 8 := by
    have h := lor_eq_add (i := 16) (d0 % 128 * 2 ^ 8 + d1) (d2 * 2 ^ 8)
      (by norm_num; omega)
    have hr : (d0 % 128 * 2 ^ 8 + d1) * 2 ^ 16 =
        d0 % 128 * 2 ^ 24 + d1 * 2 ^ 16 := by ring
    rw [hr] at h
    exact h
  have e3 : (d0 % 128 * 2 ^ 24 + d1 * 2 ^ 16 + d2 * 2 ^ 8) ||| d3 =
      d0 % 128 * 2 ^ 24 + d1 * 2 ^ 16 + d2 * 2 ^ 8 + d3 := by
    have h := lor_eq_add (i := 8) (d0 % 128 * 2 ^ 16 + d1 * 2 ^ 8 + d2) d3
      (by norm_num; omega)
    have hr : (d0 % 128 * 2 ^ 16 + d1 * 2 ^ 8 + d2) * 2 ^ 8 =
        d0 % 128 * 2 ^ 24 + d1 * 2 ^ 16 + d2 * 2 ^ 8 := by ring
    rw [hr] at h
    exact h
  rw [hm, Nat.shiftLeft_eq, Nat.shiftLeft_eq, Nat.shiftLeft_eq, e1, e2, e3]
  norm_num

theorem totpFromSecret_eq_spec (secret : List Nat) (t : Nat) :
    totpFromSecret secret t = spec_totp secret t := by
  simp only [totpFromSecret, spec_totp]
  have hoff : (hmacSha1 secret (beBytes 8 (t / 30))).getD 19 0 &&& 15 =
      ((hmacSha1 secret (beBytes 8 (t / 30))).getD 19 0) % 16 := by
    have h := Nat.and_pow_two_sub_one_eq_mod
      ((hmacSha1 secret (beBytes 8 (t / 30))).getD 19 0) 4
    norm_num at h
    exact h
  rw [hoff, truncation_eq _ _ _ _ (hmacSha1_getD_lt _ _ _)
    (hmacSha1_getD_lt _ _ _) (hmacSha1_getD_lt _ _ _)]

theorem zeroPad6_length {n : Nat} (h : n < 1000000) :
    (String.mk (zeroPad 6 (natDecimal n))).length = 6 := by
  have hlen := natDecimal_length_le (n := n) (k := 6) (by norm_num)
    (by norm_num; omega)
  simp only [String.length, zeroPad, List.length_append, List.length_replicate]
  omega

theorem totpFromSecret_length (secret : List Nat) (t : Nat) :
    (totpFromSecret secret t).length = 6 := by
  simp only [totpFromSecret]
  exact zeroPad6_length (Nat.mod_lt _ (by norm_num))

theorem totpFromSecret_digits (secret : List Nat) (t : Nat) :
    ∀ c ∈ (totpFromSecret secret t).data, c.isDigit = true := by
  simp only [totpFromSecret, zeroPad]
  intro c hc
  simp only [String.data, List.mem_append, List.mem_replicate] at hc
  rcases hc with ⟨_, rfl⟩ | hc
  · decide
  · exact natDecimal_isDigit c hc

/-! ## Claim theorems -/

/-- C10: for every secret and every server time, the dynamic-truncation
offset — the low 4 bits of the 20th HMAC-SHA1 digest byte — is at most
15, so all four accessed indices `offset..offset+3` lie within the
20-byte digest; `totpFromSecret` (hence `generate_totp`) is a total
function whose digest indexing is in bounds. -/
theorem totp_offset_in_bounds : ∀ (secret : List Nat) (t : Nat),
    (hmacSha1 secret (beBytes 8 (t / 30))).getD 19 0 &&& 15 ≤ 15 ∧
    ((hmacSha1 secret (beBytes 8 (t / 30))).getD 19 0 &&& 15) + 3 <
      (hmacSha1 secret (beBytes 8 (t / 30))).length := by
  intro secret t
  have hoff : (hmacSha1 secret (beBytes 8 (t / 30))).getD 19 0 &&& 15 ≤ 15 :=
    Nat.and_le_right
  refine ⟨hoff, ?_⟩
  rw [hmacSha1_length]
  omega

/-- C4: for every secret byte string and every server time, the OTP
generator agrees with the spec's algorithm (counter = time/30,
HMAC-SHA1 of the big-endian 8-byte counter, offset = low 4 bits of the
last digest byte, 4 bytes at that offset as a big-endian integer with
the top bit masked, modulo 1,000,000, left-zero-padded to 6 digits),
and the output is always exactly 6 ASCII digits. -/
theorem generate_totp_spec : ∀ (secret : List Nat) (t : Nat),
    totpFromSecret secret t = spec_totp secret t ∧
    generate_totp t = spec_totp ((base32Decode totpSecretLiteral).getD []) t ∧
    (totpFromSecret secret t).length = 6 ∧
    (∀ c ∈ (totpFromSecret secret t).data, c.isDigit = true) := by
  intro secret t
  exact ⟨totpFromSecret_eq_spec secret t, totpFromSecret_eq_spec _ t,
    totpFromSecret_length secret t, totpFromSecret_digits secret t⟩

/-- C9: `format_ms` renders a millisecond value as
`mm:ss.xx` with each component zero-padded to two digits, where
minutes = ms/60000, seconds = ms/1000 mod 60 and
centiseconds = (ms mod 1000)/10; in particular
`format_ms 65250 = "01:05.25"` and `format_ms 0 = "00:00.00"`. -/
theorem format_ms_spec :
    (∀ ms : Nat,
      format_ms ms = String.mk (zeroPad 2 (natDecimal (ms / 60000))) ++ ":" ++
        String.mk (zeroPad 2 (natDecimal (ms / 1000 % 60))) ++ "." ++
        String.mk (zeroPad 2 (natDecimal (ms % 1000 / 10)))) ∧
    format_ms 65250 = "01:05.25" ∧ format_ms 0 = "00:00.00" := by
  refine ⟨fun ms => ?_, by decide, by decide⟩
  simp only [format_ms]
  rw [Nat.div_div_eq_div_mul]

/-- C8: `extract_track_id` returns `some id` exactly when the input
split on `'/'` has segment `"track"` at index 3 and a segment at index
4, and then `id` is that segment truncated at the first `'?'`; with the
two concrete examples from the spec. -/
theorem extract_track_id_spec :
    (∀ url : String,
      extract_track_id url =
        (let parts := splitChar '/' url.data
         if 4 < parts.length ∧ parts.getD 3 [] = "track".data then
           some (String.mk ((parts.getD 4 []).takeWhile (fun c => c != '?')))
         else none)) ∧
    extract_track_id "https://open.spotify.com/track/abc123?si=xyz" =
      some "abc123" ∧
    extract_track_id "https://open.spotify.com/album/abc123" = none := by
  refine ⟨fun url => ?_, by decide, by decide⟩
  simp only [extract_track_id, splitChar_headD]

/-- C5: for every server time, the token-exchange query-parameter map
contains exactly seven pairs — reason=transport, productType=web_player,
totpVer=5, totp and totpServer both the derived OTP code, sTime the
decimal server time and cTime the decimal server time with `"420"`
appended by string concatenation (at time 1 this gives `"1420"`, not
the numeric sum `"421"`). -/
theorem serverTimeParams_spec : ∀ t : Nat,
    (serverTimeParams t).lookup "reason" = some "transport" ∧
    (serverTimeParams t).lookup "productType" = some "web_player" ∧
    (serverTimeParams t).lookup "totpVer" = some "5" ∧
    (serverTimeParams t).lookup "totp" = some (generate_totp t) ∧
    (serverTimeParams t).lookup "totpServer" = some (generate_totp t) ∧
    (serverTimeParams t).lookup "sTime" = some (rustShow t) ∧
    (serverTimeParams t).lookup "cTime" = some (rustShow t ++ "420") ∧
    (serverTimeParams t).length = 7 ∧
    ((serverTimeParams t).map Prod.fst).Nodup ∧
    (serverTimeParams 1).lookup "cTime" = some "1420" ∧
    rustShow (1 + 420) = "421" := by
  intro t
  refine ⟨?_, ?_, ?_, ?_, ?_, ?_, ?_, ?_, ?_, ?_, ?_⟩ <;>
    simp [serverTimeParams, List.lookup] <;> decide

/-! ## Sample environments used by concrete witnesses -/

/-- Sample environment: both round trips succeed with server time 1 and
an empty-object token response (no `accessToken`, no expiry). -/
def sampleEnv : TokenEnv := ⟨200, some (.obj [("serverTime", .num 1)]), 200, some (.obj [])⟩

/-- Sample environment whose token response marks the session anonymous. -/
def anonEnv : TokenEnv :=
  ⟨200, some (.obj [("serverTime", .num 1)]), 200,
   some (.obj [("isAnonymous", .bool true)])⟩

/-- Sample environment granting a fresh token `"newtok"` with expiry 99. -/
def okTokEnv : TokenEnv :=
  ⟨200, some (.obj [("serverTime", .num 30)]), 200,
   some (.obj [("accessToken", .str "newtok"),
               ("accessTokenExpirationTimestampMs", .num 99)])⟩

/-- Cache state holding a token that is fresh at time 0. -/
def freshCacheFs : FileState := .present (.good ⟨some "tok", none, some 5⟩)

/-! ## Freshness (spec-side characterization) -/

/-- Freshness of a cache record as the code implements it: a token
value is present and the expiry is present and not earlier than the
current time (non-strict comparison). -/
def isFresh (cd : CacheData) (now : Nat) : Bool :=
  cd.access_token.isSome &&
    (match cd.access_token_expiration_timestamp_ms with
     | none => false
     | some e => decide (now ≤ e))

/-- The record obtained from a file state that loads successfully. -/
def recordOf (fs : FileState) : CacheData :=
  match fs with
  | .present (.good d) => d
  | _ => ⟨none, none, none⟩

/-- C2 (counterexample): the claim's freshness condition — expiry
strictly greater than now, with acquisition invoked on parse failure —
is falsified by the code: a record whose expiry equals the current time
(1000) is treated as fresh and triggers no acquisition, and a cache
file with unparsable content makes the guard fail with the parse error
instead of invoking acquisition. -/
theorem check_tokens_expire_cex :
    (check_tokens_expire "sp" sampleEnv 1000
        (.present (.good ⟨some "tok", none, some 1000⟩))).calledGetToken = false ∧
    ¬ (1000 < 1000) ∧
    check_tokens_expire "sp" sampleEnv 1000 (.present (.bad "not json")) =
      ⟨.error (.JsonError "not json"), .present (.bad "not json"), false⟩ := by
  exact ⟨rfl, by omega, rfl⟩

/-- C2 (amended): the guard fails with the parse error on an
unparsable cache file; otherwise the token is fresh iff the record has
a token value and an expiry greater than or equal to the current time
(non-strict), in which case no acquisition happens and the cache is
unchanged; in every other case (missing file or missing field or
expiry before now) it delegates to token acquisition. -/
theorem check_tokens_expire_spec :
    ∀ (sp_dc : String) (env : TokenEnv) (now : Nat) (fs : FileState),
      check_tokens_expire sp_dc env now fs =
        match fs with
        | .present (.bad m) => ⟨.error (.JsonError m), fs, false⟩
        | _ =>
          if isFresh (recordOf fs) now then ⟨.ok (), fs, false⟩
          else ⟨(get_token sp_dc env fs).1, (get_token sp_dc env fs).2, true⟩ := by
  intro sp env now fs
  match fs with
  | .absent =>
    simp [check_tokens_expire, recordOf, isFresh, load_cache_file]
  | .present (.bad m) =>
    simp [check_tokens_expire, load_cache_file]
  | .present (.good d) =>
    obtain ⟨tok, cid, exp⟩ := d
    cases tok with
    | none => simp [check_tokens_expire, load_cache_file, recordOf, isFresh]
    | some tokv =>
      cases exp with
      | none => simp [check_tokens_expire, load_cache_file, recordOf, isFresh]
      | some e =>
        by_cases h : e < now
        · simp [check_tokens_expire, load_cache_file, recordOf, isFresh, h,
            Nat.not_le.mpr h]
        · simp [check_tokens_expire, load_cache_file, recordOf, isFresh, h,
            Nat.not_lt.mp h]

/-- C1 (counterexample): a token-exchange response that lacks both the
access token and the expiration timestamp does not fail token
acquisition; the code succeeds and persists a Cached Token Record whose
token and expiry fields are both absent, violating the claimed
invariant. -/
theorem get_token_missing_fields_cex :
    get_token "sp" sampleEnv .absent =
      (.ok (), .present (.good ⟨none, none, none⟩)) := rfl

/-- C1 (amended): token acquisition does not validate the presence of
the access token or the expiration timestamp; whenever it succeeds it
persists a record whose token and expiry fields are copied from the
response verbatim — absent when the response lacks them — with the
client id taken from the response when present and otherwise carried
over from the previously loaded record. -/
theorem get_token_persists_response_fields :
    ∀ (sp_dc : String) (env : TokenEnv) (fs : FileState) (tj : Json)
      (cd : CacheData),
      env.tokBody = some tj →
      load_cache_file fs = .ok cd →
      (get_token sp_dc env fs).1 = .ok () →
      (get_token sp_dc env fs).2 = .present (.good
        ⟨jAsStr (jIdx tj "accessToken"),
         (match jAsStr (jIdx tj "clientId") with
          | some cid => some cid
          | none => cd.client_id),
         jAsU64 (jIdx tj "accessTokenExpirationTimestampMs")⟩) := by
  intro sp env fs tj cd htj hload hok
  by_cases hsp : sp = ""
  · simp [get_token, hsp] at hok
  · cases hst : get_server_time_params env with
    | error e => simp [get_token, hsp, hst] at hok
    | ok ps =>
      by_cases hts : statusIsSuccess env.tokStatus = true
      · by_cases hanon :
          ((jGet tj "isAnonymous").map (fun v => (jAsBool v).getD false)).getD false = true
        · simp [get_token, hsp, hst, hts, htj, hanon] at hok
        · cases hcid : jAsStr (jIdx tj "clientId") with
          | none =>
            simp [get_token, save_cache_file, hsp, hst, hts, htj, hanon, hload, hcid]
          | some cid =>
            simp [get_token, save_cache_file, hsp, hst, hts, htj, hanon, hload, hcid]
      · simp [get_token, hsp, hst, hts] at hok

/-- C1 (witness): instantiating the amended theorem at the sample
environment whose token response is an empty object: acquisition
succeeds and persists the all-absent record. -/
theorem get_token_persists_response_fields_witness :
    (get_token "x" sampleEnv .absent).2 = .present (.good ⟨none, none, none⟩) :=
  get_token_persists_response_fields "x" sampleEnv .absent (.obj [])
    ⟨none, none, none⟩ rfl rfl rfl

/-- C6: an `isAnonymous: true` boolean field in the token-exchange
response makes acquisition fail with the distinct invalid-credential
error, and on this and every other failure path the cache file is left
unchanged — the cache is mutated only by a successful acquisition. -/
theorem get_token_failure_behavior :
    ∀ (sp_dc : String) (env : TokenEnv) (fs : FileState),
      (∀ e, (get_token sp_dc env fs).1 = .error e →
        (get_token sp_dc env fs).2 = fs) ∧
      (∀ tj ps, env.tokBody = some tj →
        sp_dc ≠ "" →
        get_server_time_params env = .ok ps →
        statusIsSuccess env.tokStatus = true →
        ((jGet tj "isAnonymous").map (fun v => (jAsBool v).getD false)).getD false = true →
        (get_token sp_dc env fs).1 =
          .error (.Generic "The SP_DC set seems to be invalid, please correct it!")) := by
  intro sp env fs
  constructor
  · intro e herr
    by_cases hsp : sp = ""
    · simp [get_token, hsp]
    · cases hst : get_server_time_params env with
      | error e2 => simp [get_token, hsp, hst]
      | ok ps =>
        by_cases hts : statusIsSuccess env.tokStatus = true
        · cases htj : env.tokBody with
          | none => simp [get_token, hsp, hst, hts, htj]
          | some tj =>
            by_cases hanon :
              ((jGet tj "isAnonymous").map (fun v => (jAsBool v).getD false)).getD false = true
            · simp [get_token, hsp, hst, hts, htj, hanon]
            · cases hload : load_cache_file fs with
              | error e3 => simp [get_token, hsp, hst, hts, htj, hanon, hload]
              | ok cd =>
                simp [get_token, hsp, hst, hts, htj, hanon, hload] at herr
        · simp [get_token, hsp, hst, hts]
  · intro tj ps htj hsp hst hts hanon
    simp [get_token, hsp, hst, hts, htj, hanon]

/-- C6 (witness): instantiating the theorem at the anonymous-response
environment: acquisition fails with the invalid-credential error and
the (absent) cache file is unchanged. -/
theorem get_token_failure_behavior_witness :
    (get_token "x" anonEnv .absent).1 =
      .error (.Generic "The SP_DC set seems to be invalid, please correct it!") ∧
    (get_token "x" anonEnv .absent).2 = .absent := by
  have h1 := (get_token_failure_behavior "x" anonEnv .absent).2
    (.obj [("isAnonymous", .bool true)]) (serverTimeParams 1)
    rfl (by decide) rfl rfl rfl
  exact ⟨h1, (get_token_failure_behavior "x" anonEnv .absent).1 _ h1⟩

/-- C3: lyrics retrieval makes at most two attempts; when the prep
steps of an attempt succeed, a 2xx response returns the raw body
as-is, a 401 on attempt 1 deletes the cache file (attempt 2 restarts
from the absent state) and retries exactly once, and any other
non-success status — including a 401 on attempt 2 — fails with an API
error carrying the HTTP status code and reason phrase; there is never a
third attempt. -/
theorem get_lyrics_retry_spec :
    ∀ (sp_dc : String) (now : Nat) (env1 env2 : AttemptEnv) (fs : FileState),
      (get_lyrics sp_dc now env1 env2 fs).2.2 ≤ 2 ∧
      (∀ tok fs1, attemptPrep sp_dc env1.tokenEnv now fs = (.ok tok, fs1) →
        (statusIsSuccess env1.status = true →
          get_lyrics sp_dc now env1 env2 fs = (.ok env1.body, fs1, 1)) ∧
        (statusIsSuccess env1.status = false → env1.status ≠ 401 →
          get_lyrics sp_dc now env1 env2 fs =
            (.error (.ApiError (lyricsFailMsg env1.status)), fs1, 1)) ∧
        (env1.status = 401 →
          ∀ tok2 fs3,
            attemptPrep sp_dc env2.tokenEnv now (removeCacheFile fs1) = (.ok tok2, fs3) →
            (statusIsSuccess env2.status = true →
              get_lyrics sp_dc now env1 env2 fs = (.ok env2.body, fs3, 2)) ∧
            (statusIsSuccess env2.status = false →
              get_lyrics sp_dc now env1 env2 fs =
                (.error (.ApiError (lyricsFailMsg env2.status)), fs3, 2)))) := by
  intro sp now env1 env2 fs
  have h401f : statusIsSuccess 401 = false := by decide
  constructor
  · unfold get_lyrics
    rcases h1 : attemptPrep sp env1.tokenEnv now fs with ⟨r1, fs1⟩
    cases r1 with
    | error e => simp
    | ok tok =>
      by_cases hs : statusIsSuccess env1.status = true
      · simp [hs]
      · by_cases h4 : env1.status = 401
        · rcases h2 : attemptPrep sp env2.tokenEnv now (removeCacheFile fs1)
            with ⟨r2, fs3⟩
          cases r2 with
          | error e2 => simp [hs, h4, h2, h401f]
          | ok tok2 =>
            by_cases hs2 : statusIsSuccess env2.status = true <;>
              simp [hs, h4, h2, hs2, h401f]
        · simp [hs, h4]
  · intro tok fs1 hprep
    refine ⟨?_, ?_, ?_⟩
    · intro hs
      simp [get_lyrics, hprep, hs]
    · intro hs h401
      simp [get_lyrics, hprep, hs, h401]
    · intro h401 tok2 fs3 hprep2
      constructor
      · intro hs2
        simp [get_lyrics, hprep, h401, h401f, hprep2, hs2]
      · intro hs2
        simp [get_lyrics, hprep, h401, h401f, hprep2, hs2]

/-- C3 (witness): concrete runs through the theorem — a fresh cache
with a 2xx first response returns the body on attempt 1, and a 401
followed by a second 401 (after a successful forced re-acquisition
from the cleared cache) fails with the 401 API error after exactly two
attempts. -/
theorem get_lyrics_retry_witness :
    get_lyrics "x" 0 ⟨okTokEnv, 200, "raw-body"⟩ ⟨okTokEnv, 200, "b2"⟩ freshCacheFs =
      (.ok "raw-body", freshCacheFs, 1) ∧
    get_lyrics "x" 0 ⟨okTokEnv, 401, "b1"⟩ ⟨okTokEnv, 401, "b2"⟩ freshCacheFs =
      (.error (.ApiError (lyricsFailMsg 401)),
       .present (.good ⟨some "newtok", none, some 99⟩), 2) := by
  constructor
  · exact (((get_lyrics_retry_spec "x" 0 ⟨okTokEnv, 200, "raw-body"⟩
      ⟨okTokEnv, 200, "b2"⟩ freshCacheFs).2 "tok" freshCacheFs rfl).1 rfl)
  · have h := ((get_lyrics_retry_spec "x" 0 ⟨okTokEnv, 401, "b1"⟩
      ⟨okTokEnv, 401, "b2"⟩ freshCacheFs).2 "tok" freshCacheFs rfl).2.2 rfl
      "newtok" (.present (.good ⟨some "newtok", none, some 99⟩)) rfl
    exact h.2 rfl

theorem get_formatted_lyrics_ok_error_false :
    ∀ (fetched : Except SpotifyException Json) (fmt : String) (v : Json),
      get_formatted_lyrics fetched fmt = .ok v →
      jGet v "error" = some (.bool false) := by
  intro fetched fmt v h
  cases fetched with
  | error e => simp [get_formatted_lyrics] at h
  | ok j =>
    simp only [get_formatted_lyrics] at h
    split at h
    · exact absurd h (by simp)
    · split at h
      · simp only [Except.ok.injEq] at h
        rw [← h]
        rfl
      · simp only [Except.ok.injEq] at h
        rw [← h]
        rfl

theorem resolveTrackId_error_400 (q : Query) (resp : Nat × Json)
    (h : resolveTrackId q = .error resp) : resp.1 = 400 := by
  obtain ⟨tr, u, f⟩ := q
  cases tr with
  | some tid => simp [resolveTrackId] at h
  | none =>
    cases u with
    | none =>
      simp only [resolveTrackId, Except.error.injEq] at h
      rw [← h]
    | some url =>
      cases hex : extract_track_id url with
      | none =>
        simp only [resolveTrackId, hex, Except.error.injEq] at h
        rw [← h]
      | some t2 =>
        simp [resolveTrackId, hex] at h

/-- C7 (counterexample): the claim's format rule is not universal — a
request with `format=xml` but neither `trackid` nor `url` is rejected
by the identifier check first, yielding 400 with the
url-or-trackid body rather than the claimed format body. -/
theorem handle_get_lyrics_cex :
    handle_get_lyrics ⟨none, none, some "xml"⟩ (.error (.Generic "g")) =
      (400, errJson "url or trackid parameter is required!") ∧
    errJson "url or trackid parameter is required!" ≠
      errJson "format parameter must be either 'id3' or 'lrc'!" := by
  refine ⟨rfl, ?_⟩
  simp [errJson]

/-- C7 (amended): the handler maps errors as follows — a request
carrying a track identifier whose format parameter is neither `id3`
nor `lrc` yields 400 with the format-message body; a request with
neither `trackid` nor `url` yields 400 (with the url-or-trackid body,
which takes precedence over the format check); a track whose upstream
payload has no `lyrics` key yields 404 with the fixed message; every
other failure yields 500 with `{error:true, message}`; and every
success (status 200) body has `error: false`. -/
theorem handle_get_lyrics_mapping :
    ∀ (q : Query) (fetched : Except SpotifyException Json),
      (∀ tid fmt, resolveTrackId q = .ok tid → q.format = some fmt →
        fmt ≠ "id3" → fmt ≠ "lrc" →
        handle_get_lyrics q fetched =
          (400, errJson "format parameter must be either 'id3' or 'lrc'!")) ∧
      (q.trackid = none → q.url = none →
        handle_get_lyrics q fetched =
          (400, errJson "url or trackid parameter is required!")) ∧
      (∀ tid j, resolveTrackId q = .ok tid →
        (q.format = none ∨ q.format = some "id3" ∨ q.format = some "lrc") →
        fetched = .ok j → jGet j "lyrics" = none →
        handle_get_lyrics q fetched =
          (404, errJson "lyrics for this track is not available on spotify!")) ∧
      (∀ tid e, resolveTrackId q = .ok tid →
        (q.format = none ∨ q.format = some "id3" ∨ q.format = some "lrc") →
        fetched = .error e →
        e ≠ .Generic "lyrics for this track is not available on spotify!" →
        handle_get_lyrics q fetched =
          (500, errJson ("Failed to fetch lyrics: " ++ displayExc e))) ∧
      ((handle_get_lyrics q fetched).1 = 200 →
        jGet (handle_get_lyrics q fetched).2 "error" = some (.bool false)) := by
  intro q fetched
  refine ⟨?_, ?_, ?_, ?_, ?_⟩
  · intro tid fmt hres hfmt h1 h2
    simp [handle_get_lyrics, hres, hfmt, h1, h2]
  · intro htid hurl
    simp [handle_get_lyrics, resolveTrackId, htid, hurl]
  · intro tid j hres hfmt hfetch hlyr
    have hnol : (jGet j "lyrics").isNone = true := by
      rw [hlyr]
      rfl
    rcases hfmt with h | h | h <;>
      simp [handle_get_lyrics, get_formatted_lyrics, hres, h, hfetch, hnol]
  · intro tid e hres hfmt hfetch hne
    rcases hfmt with h | h | h <;>
      cases e <;>
        simp_all [handle_get_lyrics, get_formatted_lyrics, displayExc, errJson]
  · intro h200
    cases hres : resolveTrackId q with
    | error resp =>
      exfalso
      have heq : handle_get_lyrics q fetched = resp := by
        simp only [handle_get_lyrics, hres]
      rw [heq] at h200
      have h400 := resolveTrackId_error_400 q resp hres
      omega
    | ok tid =>
      have heq : handle_get_lyrics q fetched =
          (if (q.format).getD "id3" ≠ "id3" ∧ (q.format).getD "id3" ≠ "lrc" then
            (400, errJson "format parameter must be either 'id3' or 'lrc'!")
          else
            match get_formatted_lyrics fetched ((q.format).getD "id3") with
            | .ok lyrics_json => (200, lyrics_json)
            | .error e =>
              match e with
              | .Generic m =>
                if m = "lyrics for this track is not available on spotify!" then
                  (404, errJson "lyrics for this track is not available on spotify!")
                else (500, errJson ("Failed to fetch lyrics: " ++ displayExc e))
              | _ => (500, errJson ("Failed to fetch lyrics: " ++ displayExc e))) := by
        simp only [handle_get_lyrics, hres]
      rw [heq] at h200 ⊢
      by_cases hbad : ((q.format).getD "id3" ≠ "id3" ∧ (q.format).getD "id3" ≠ "lrc")
      · rw [if_pos hbad] at h200
        simp at h200
      · rw [if_neg hbad] at h200 ⊢
        cases hfl : get_formatted_lyrics fetched ((q.format).getD "id3") with
        | ok v =>
          exact get_formatted_lyrics_ok_error_false fetched _ v hfl
        | error e =>
          exfalso
          rw [hfl] at h200
          cases e with
          | Generic m =>
            by_cases hm : m = "lyrics for this track is not available on spotify!"
            · simp [hm] at h200
            · simp [hm] at h200
          | ApiError m => simp at h200
          | RequestError m => simp at h200
          | JsonError m => simp at h200
          | IoError m => simp at h200
          | UrlEncodedError m => simp at h200


/-- C7 (witness): concrete instantiations of the amended mapping — an
invalid format with a trackid, a payload without lyrics for an
identifier supplied via the url parameter, and an API failure. -/
theorem handle_get_lyrics_mapping_witness :
    handle_get_lyrics ⟨some "t", none, some "xml"⟩ (.error (.Generic "g")) =
      (400, errJson "format parameter must be either 'id3' or 'lrc'!") ∧
    handle_get_lyrics
        ⟨none, some "https://open.spotify.com/track/abc123?si=xyz", none⟩
        (.ok (.obj [])) =
      (404, errJson "lyrics for this track is not available on spotify!") ∧
    handle_get_lyrics ⟨some "t", none, none⟩ (.error (.ApiError "boom")) =
      (500, errJson ("Failed to fetch lyrics: " ++ displayExc (.ApiError "boom"))) := by
  refine ⟨?_, ?_, ?_⟩
  · exact (handle_get_lyrics_mapping ⟨some "t", none, some "xml"⟩
      (.error (.Generic "g"))).1 "t" "xml" rfl rfl (by decide) (by decide)
  · exact (handle_get_lyrics_mapping
      ⟨none, some "https://open.spotify.com/track/abc123?si=xyz", none⟩
      (.ok (.obj []))).2.2.1 "abc123" (.obj []) rfl (Or.inl rfl) rfl rfl
  · exact (handle_get_lyrics_mapping ⟨some "t", none, none⟩
      (.error (.ApiError "boom"))).2.2.2.1 "t" (.ApiError "boom") rfl
      (Or.inl rfl) rfl (by decide)

end SpotifyLyrics
